import Mathlib

/-!
Verification of the token-budget accounting and conversation loop of a
command-line chat client (`main.go`). The program keeps a transcript of
role-tagged messages and a `SessionStats` record, reads input lines, counts
tokens, enforces a fixed context-window budget (`MaxTokens = 4096`), streams
a reply, and updates the stats after each exchange.

The Go code is shallowly embedded: `SessionStats` and its `update` method are
translated directly; the body of the `for` loop in `main` becomes the pure
step function `loopStep`, parameterised by a per-turn environment supplying
the external tokenizer outcome, the streamed content fragments, and the
stream's terminal error, with console effects recorded as a list of events.
Go `int` values are modelled as `Int` (token counts from the tokenizer as
`Nat`, cast on use); no arithmetic in the claims approaches 64-bit overflow.
-/

namespace ChatClient

/-- `MaxTokens` from main.go line 19: the GPT-3.5-turbo context window. -/
def MaxTokens : Int := 4096

/-- An encoder as produced by `tiktoken.GetEncoding`: `tkm.Encode` never
fails, so loading yields a total token-counting function on strings. -/
def Encoder : Type := String → Nat

/-- `countTokens` (main.go lines 25-33): `GetEncoding` either fails, in which
case the function returns the pair `(0, err)`, or yields an encoder `tkm`
and the function returns `(len(tkm.Encode(text)), nil)`. The outcome of
`GetEncoding` is passed in as `ge`; the error branch carries its message. -/
def countTokens (ge : Except String Encoder) (text : String) : Nat × Option String :=
  match ge with
  | .error e => (0, some e)
  | .ok tkm => (tkm text, none)

/-- `SessionStats` (main.go lines 37-41): three integer counters. -/
structure SessionStats where
  totalTokens : Int
  messageCount : Int
  remainingTokens : Int
deriving DecidableEq, Repr

/-- `SessionStats.update` (main.go lines 46-50): add the new tokens to the
total, increment the message count, recompute the remainder. -/
def SessionStats.update (s : SessionStats) (newTokens : Int) : SessionStats :=
  { totalTokens := s.totalTokens + newTokens
    messageCount := s.messageCount + 1
    remainingTokens := MaxTokens - (s.totalTokens + newTokens) }

/-- The fresh stats built in `main` (lines 71-73): zero values except
`remainingTokens`, which starts at `MaxTokens`. -/
def initStats : SessionStats :=
  { totalTokens := 0, messageCount := 0, remainingTokens := MaxTokens }

/-- Message roles of the transcript entries. -/
inductive Role where
  | system
  | user
  | assistant
deriving DecidableEq, Repr

/-- A role-tagged transcript message. -/
structure Message where
  role : Role
  content : String
deriving DecidableEq, Repr

/-- The state owned by the loop in `main`: the transcript slice `messages`
and the stats record. -/
structure LoopState where
  messages : List Message
  stats : SessionStats
deriving DecidableEq, Repr

/-- The initial state of `main` (lines 71-78): fresh stats and a transcript
seeded with the single system message. -/
def initState : LoopState :=
  { messages := [⟨Role.system, "You are a helpful assistant."⟩]
    stats := initStats }

/-- Console events emitted during one loop iteration. Events on standard
output: the input echo, each streamed fragment, the budget warning, the stats
summary. Events on the diagnostic (error) stream: the token-counting error
log and the stream error log. -/
inductive OutEvent where
  | echo : String → OutEvent
  | fragment : String → OutEvent
  | budgetWarning : Int → Nat → OutEvent
  | statsDisplay : SessionStats → OutEvent
  | tokErrLog : String → OutEvent
  | streamErrLog : String → OutEvent
deriving DecidableEq, Repr

/-- The per-turn environment: the outcomes of the two `GetEncoding` calls of
this iteration (one for the input, one for the response), the content
fragments delivered by the stream (the `Delta.Content` of events with a
nonempty `Choices` slice, in order), and the value of `stream.Err()` once
the stream has ended. -/
structure TurnEnv where
  geInput : Except String Encoder
  geResp : Except String Encoder
  fragments : List String
  streamErr : Option String

/-- Result of one iteration of the loop body: either the `break` on the quit
sentinel, with the final console events, or the next state plus the events
of the iteration. -/
inductive StepResult where
  | exited : List OutEvent → StepResult
  | continued : LoopState → List OutEvent → StepResult
deriving DecidableEq, Repr

/-- Whether a step result is the `break` out of the loop. -/
def StepResult.isExit : StepResult → Bool
  | .exited _ => true
  | .continued _ _ => false

/-- One iteration of the `for` loop body in `main` (lines 80-140), given the
line read from the console. In order: the quit-sentinel check (lines 85-89);
token counting for the input with error skip (lines 92-96); the budget check
(lines 98-102); append of the user message and first stats update (lines
104-106); the echo (line 109); the streaming accumulation of the response
(lines 117-127); append of the assistant message (line 130); token counting
for the response with the error ignored (line 132); the second stats update
and the stats display (lines 133-134); finally the `stream.Err()` check
(lines 136-139), which logs and continues. -/
def loopStep (env : TurnEnv) (st : LoopState) (input : String) : StepResult :=
  if input = "q" then
    .exited [.statsDisplay st.stats]
  else
    match countTokens env.geInput input with
    | (_, some e) => .continued st [.tokErrLog e]
    | (inputTokens, none) =>
      if (inputTokens : Int) + st.stats.totalTokens > MaxTokens then
        .continued st [.budgetWarning st.stats.totalTokens inputTokens]
      else
        let messages1 := st.messages ++ [⟨Role.user, input⟩]
        let stats1 := st.stats.update inputTokens
        let response := String.join env.fragments
        let messages2 := messages1 ++ [⟨Role.assistant, response⟩]
        let responseTokens := (countTokens env.geResp response).1
        let stats2 := stats1.update responseTokens
        let st2 : LoopState := { messages := messages2, stats := stats2 }
        let out := .echo input :: env.fragments.map OutEvent.fragment
          ++ [.statsDisplay stats2]
        match env.streamErr with
        | some e => .continued st2 (out ++ [.streamErrLog e])
        | none => .continued st2 out

/-- A whole run of the loop over a list of turns, each a console line paired
with that turn's environment; stops early at the quit sentinel, returning
the state at that point. -/
def runLoop (turns : List (String × TurnEnv)) (st : LoopState) : LoopState :=
  match turns with
  | [] => st
  | (input, env) :: rest =>
    match loopStep env st input with
    | .exited _ => st
    | .continued st2 _ => runLoop rest st2

/-- The response string assembled by the streaming loop (main.go lines
117-126): the concatenation, in order, of the delivered content fragments. -/
def turnResponse (env : TurnEnv) : String := String.join env.fragments

/-- The transcript after an accepted turn: the user message then the
assistant message holding the assembled response (main.go lines 105, 130). -/
def acceptedMessages (env : TurnEnv) (msgs : List Message) (input : String) : List Message :=
  msgs ++ [⟨Role.user, input⟩, ⟨Role.assistant, turnResponse env⟩]

/-- The stats after an accepted turn: one update with the input token count,
one with the response token count (main.go lines 106, 132-133). -/
def acceptedStats (env : TurnEnv) (s : SessionStats) (k : Nat) : SessionStats :=
  (s.update k).update ((countTokens env.geResp (turnResponse env)).1)

/-- The console events of an accepted turn: the echo, the fragments, the
stats summary, and the stream error log when `stream.Err()` is non-nil. -/
def acceptedOut (env : TurnEnv) (s : SessionStats) (input : String) (k : Nat) : List OutEvent :=
  (OutEvent.echo input :: env.fragments.map OutEvent.fragment
      ++ [OutEvent.statsDisplay (acceptedStats env s k)])
    ++ (match env.streamErr with
        | some e => [OutEvent.streamErrLog e]
        | none => [])

/-- Rounding to the nearest integer with ties going to the even neighbour:
the rounding Go's `fmt` verb `%.1f` applies to the (here exactly
representable) value being printed. -/
def roundTiesToEven (x : ℚ) : Int :=
  if x - ⌊x⌋ < 1/2 then ⌊x⌋
  else if 1/2 < x - ⌊x⌋ then ⌊x⌋ + 1
  else if ⌊x⌋ % 2 = 0 then ⌊x⌋ else ⌊x⌋ + 1

/-- The context-usage percentage printed by `display` (main.go line 60), in
tenths of a percent: `float64(totalTokens)/float64(MaxTokens)*100` printed
with `%.1f`. Since `MaxTokens = 4096 = 2^12`, the float computation is exact
whenever `|totalTokens * 25| < 2^53`, and `%.1f` then prints the correctly
rounded single decimal with ties to even; the model rounds the exact
rational value accordingly. -/
def contextUsageTenths (totalTokens : Int) : Int :=
  roundTiesToEven ((totalTokens * 1000 : ℚ) / (MaxTokens : ℚ))

/-- Turn environment of the end-to-end scenario: the input counts as 10
tokens, the stream delivers "Hello" and " world", counted together as 2
tokens, and the stream ends without error. -/
def envScenario : TurnEnv :=
  { geInput := .ok fun _ => 10
    geResp := .ok fun _ => 2
    fragments := ["Hello", " world"]
    streamErr := none }

/-- Turn environment for concrete witnesses: every string counts as 3
tokens, one fragment "par", no stream error. -/
def envScenario3 : TurnEnv :=
  { geInput := .ok fun _ => 3
    geResp := .ok fun _ => 3
    fragments := ["par"]
    streamErr := none }

/-- Turn environment whose stream delivers the fragment "par" (1 token) and
then reports the error "boom"; the input counts as 3 tokens. -/
def envStreamFail : TurnEnv :=
  { geInput := .ok fun _ => 3
    geResp := .ok fun _ => 1
    fragments := ["par"]
    streamErr := some "boom" }

/-- Turn environment whose stream delivers no fragments and reports the
error "boom"; every string counts as 3 tokens. -/
def envEmptyStream : TurnEnv :=
  { geInput := .ok fun _ => 3
    geResp := .ok fun _ => 3
    fragments := []
    streamErr := some "boom" }

/-- Turn environment in which the input tokenizes (1 token) but the
tokenizer fails on the assistant response: `GetEncoding` errors on the
second call. The stream delivers no fragments and ends without error. -/
def envRespTokFail : TurnEnv :=
  { geInput := .ok fun _ => 1
    geResp := .error "encoding load failed"
    fragments := []
    streamErr := none }

/-- The state reached from `initState` by the turn with input "hi" under
`envRespTokFail`: both messages appended, stats updated twice (the second
time with the 0 returned alongside the tokenization error). -/
def stateAfterRespTokFail : LoopState :=
  { messages := [⟨Role.system, "You are a helpful assistant."⟩,
      ⟨Role.user, "hi"⟩, ⟨Role.assistant, ""⟩]
    stats := { totalTokens := 1, messageCount := 2, remainingTokens := 4095 } }

/-- The console events of that turn: echo and stats summary only — in
particular no diagnostic log of the tokenization failure. -/
def outAfterRespTokFail : List OutEvent :=
  [.echo "hi", .statsDisplay { totalTokens := 1, messageCount := 2, remainingTokens := 4095 }]

end ChatClient

namespace ChatClient

/-- The loop body on the quit sentinel: `break` with the final stats
printed, the state untouched. -/
theorem loopStep_quit (env : TurnEnv) (st : LoopState) :
    loopStep env st "q" = .exited [.statsDisplay st.stats] := by
  simp [loopStep]

/-- The loop body when the input-side tokenization fails: the error is
logged and the state is returned unchanged. -/
theorem loopStep_tokErr (env : TurnEnv) (st : LoopState) (input : String) (e : String)
    (hq : input ≠ "q") (he : env.geInput = .error e) :
    loopStep env st input = .continued st [.tokErrLog e] := by
  simp [loopStep, hq, countTokens, he]

/-- The loop body when the input tokenizes to `k` but the budget check
fails: the warning is emitted and the state is returned unchanged. -/
theorem loopStep_rejected (env : TurnEnv) (st : LoopState) (input : String) (k : Nat)
    (hq : input ≠ "q") (htok : countTokens env.geInput input = (k, none))
    (hb : MaxTokens < st.stats.totalTokens + (k : Int)) :
    loopStep env st input = .continued st [.budgetWarning st.stats.totalTokens k] := by
  simp only [loopStep, if_neg hq, htok]
  rw [if_pos (by omega)]

/-- The loop body on an accepted input: both messages appended, both stats
updates applied, the events of the turn emitted. -/
theorem loopStep_accepted (env : TurnEnv) (st : LoopState) (input : String) (k : Nat)
    (hq : input ≠ "q") (htok : countTokens env.geInput input = (k, none))
    (hb : st.stats.totalTokens + (k : Int) ≤ MaxTokens) :
    loopStep env st input =
      .continued
        { messages := acceptedMessages env st.messages input
          stats := acceptedStats env st.stats k }
        (acceptedOut env st.stats input k) := by
  simp only [loopStep, if_neg hq, htok]
  rw [if_neg (by omega)]
  cases henv : env.streamErr <;>
    simp [acceptedMessages, acceptedStats, acceptedOut, turnResponse, henv]

/-- Any continued step either leaves the stats alone (sentinel, tokenization
failure, budget rejection) or applies exactly two `update` calls. -/
theorem loopStep_stats_cases (env : TurnEnv) (st : LoopState) (input : String)
    (st2 : LoopState) (out : List OutEvent)
    (h : loopStep env st input = .continued st2 out) :
    st2.stats = st.stats ∨ ∃ a b : Int, st2.stats = (st.stats.update a).update b := by
  by_cases hq : input = "q"
  · rw [hq, loopStep_quit] at h
    exact absurd h (by simp)
  · rcases htok : countTokens env.geInput input with ⟨k, oe⟩
    rcases oe with _ | e
    · rcases le_or_lt (st.stats.totalTokens + (k : Int)) MaxTokens with hb | hb
      · rw [loopStep_accepted env st input k hq htok hb] at h
        refine Or.inr ⟨k, (countTokens env.geResp (turnResponse env)).1, ?_⟩
        have := (StepResult.continued.inj h).1
        rw [← this]
        rfl
      · rw [loopStep_rejected env st input k hq htok hb] at h
        exact Or.inl (congrArg LoopState.stats (StepResult.continued.inj h).1.symm)
    · have he : env.geInput = .error e := by
        rcases hgi : env.geInput with e2 | tkm <;> simp [countTokens, hgi] at htok
        · rw [htok.2]
      rw [loopStep_tokErr env st input e hq he] at h
      exact Or.inl (congrArg LoopState.stats (StepResult.continued.inj h).1.symm)

/-- Every state a run reaches has stats obtained from the starting stats by
a finite sequence of `update` calls and nothing else. -/
theorem runLoop_stats_foldl (turns : List (String × TurnEnv)) :
    ∀ st : LoopState, ∃ ts : List Int,
      (runLoop turns st).stats = ts.foldl SessionStats.update st.stats := by
  induction turns with
  | nil => exact fun st => ⟨[], rfl⟩
  | cons turn rest ih =>
    intro st
    rcases turn with ⟨input, env⟩
    rcases hstep : loopStep env st input with out | ⟨st2, out⟩
    · exact ⟨[], by simp [runLoop, hstep]⟩
    · rcases loopStep_stats_cases env st input st2 out hstep with hsame | ⟨a, b, hab⟩
      · rcases ih st2 with ⟨ts, hts⟩
        exact ⟨ts, by simp only [runLoop, hstep, hts, hsame]⟩
      · rcases ih st2 with ⟨ts, hts⟩
        refine ⟨a :: b :: ts, ?_⟩
        simp only [runLoop, hstep, hts, hab, List.foldl]

/-- `update` re-establishes the remainder invariant unconditionally, so any
fold of updates over a state satisfying it satisfies it. -/
theorem foldl_update_invariant (ts : List Int) (s : SessionStats)
    (h : s.remainingTokens = MaxTokens - s.totalTokens) :
    (ts.foldl SessionStats.update s).remainingTokens =
      MaxTokens - (ts.foldl SessionStats.update s).totalTokens := by
  induction ts generalizing s with
  | nil => exact h
  | cons t ts ih => exact ih _ (by simp [SessionStats.update])

/-- `roundTiesToEven` lands within half a unit of its argument. -/
theorem roundTiesToEven_close (x : ℚ) : |(roundTiesToEven x : ℚ) - x| ≤ 1/2 := by
  have h1 : (⌊x⌋ : ℚ) ≤ x := Int.floor_le x
  have h2 : x < ⌊x⌋ + 1 := Int.lt_floor_add_one x
  unfold roundTiesToEven
  split_ifs with hlt hgt hev <;>
    rw [abs_le] <;> constructor <;> push_cast <;> push_cast at hlt <;> linarith

/-- Claim C5: for every non-negative integer `t`, one `update t` on a fresh
tracker yields `totalTokens = t`, `messageCount = 1` and
`remainingTokens = MaxTokens - t`; for `t` beyond `MaxTokens` the remainder
is negative, with no clamping. -/
theorem update_on_fresh_tracker (t : Int) (h : 0 ≤ t) :
    (initStats.update t).totalTokens = t ∧
    (initStats.update t).messageCount = 1 ∧
    (initStats.update t).remainingTokens = MaxTokens - t ∧
    (MaxTokens < t → (initStats.update t).remainingTokens < 0) := by
  refine ⟨by simp [initStats, SessionStats.update], by simp [initStats, SessionStats.update],
    by simp [initStats, SessionStats.update], fun hlt => ?_⟩
  simp only [initStats, SessionStats.update]
  omega

/-- Witness for C5 at `t = 5000`: the hypothesis `0 ≤ 5000` holds and the
conclusion evaluates, with the remainder negative since `5000 > 4096`. -/
theorem update_on_fresh_tracker_witness :
    (initStats.update 5000).totalTokens = 5000 ∧
    (initStats.update 5000).messageCount = 1 ∧
    (initStats.update 5000).remainingTokens = MaxTokens - 5000 ∧
    (MaxTokens < 5000 → (initStats.update 5000).remainingTokens < 0) :=
  update_on_fresh_tracker 5000 (by decide)

/-- Claim C6: for all integers `a`, `b` and every starting state `s`,
`update a` then `update b` agrees with a single `update (a + b)` on
`totalTokens` and `remainingTokens`, while `messageCount` goes up by two
instead of one. -/
theorem update_composes_additively (s : SessionStats) (a b : Int) :
    ((s.update a).update b).totalTokens = (s.update (a + b)).totalTokens ∧
    ((s.update a).update b).remainingTokens = (s.update (a + b)).remainingTokens ∧
    ((s.update a).update b).messageCount = s.messageCount + 2 ∧
    (s.update (a + b)).messageCount = s.messageCount + 1 := by
  refine ⟨?_, ?_, ?_, ?_⟩ <;> simp [SessionStats.update] <;> ring

/-- Claim C1: a non-sentinel input that tokenizes to `k` is accepted — the
turn appends the user and assistant messages and runs to the stats update —
exactly when `totalTokens + k ≤ MaxTokens`; on rejection the warning is the
only event and the transcript and all three stats fields are unchanged. -/
theorem budget_check_iff (env : TurnEnv) (st : LoopState) (input : String) (k : Nat)
    (hq : input ≠ "q") (htok : countTokens env.geInput input = (k, none)) :
    (st.stats.totalTokens + (k : Int) ≤ MaxTokens ↔
      loopStep env st input =
        .continued
          { messages := acceptedMessages env st.messages input
            stats := acceptedStats env st.stats k }
          (acceptedOut env st.stats input k)) ∧
    (MaxTokens < st.stats.totalTokens + (k : Int) →
      loopStep env st input = .continued st [.budgetWarning st.stats.totalTokens k]) := by
  constructor
  · constructor
    · intro hb
      exact loopStep_accepted env st input k hq htok hb
    · intro heq
      by_contra hb
      rw [loopStep_rejected env st input k hq htok (by omega)] at heq
      have hmsgs : st.messages = acceptedMessages env st.messages input := by
        have := StepResult.continued.inj heq
        exact congrArg LoopState.messages this.1
      have : st.messages.length = st.messages.length + 2 := by
        conv_lhs => rw [hmsgs]
        simp [acceptedMessages]
      omega
  · exact fun hb => loopStep_rejected env st input k hq htok hb

/-- Witness for C1 at a concrete accepted and measurable instance: input
"hi" of 3 tokens against fresh stats. -/
theorem budget_check_iff_witness :
    (initState.stats.totalTokens + ((3 : Nat) : Int) ≤ MaxTokens ↔
      loopStep envScenario3 initState "hi" =
        .continued
          { messages := acceptedMessages envScenario3 initState.messages "hi"
            stats := acceptedStats envScenario3 initState.stats 3 }
          (acceptedOut envScenario3 initState.stats "hi" 3)) ∧
    (MaxTokens < initState.stats.totalTokens + ((3 : Nat) : Int) →
      loopStep envScenario3 initState "hi" =
        .continued initState [.budgetWarning initState.stats.totalTokens 3]) :=
  budget_check_iff envScenario3 initState "hi" 3 (by decide) rfl

/-- Claim C2: when the stream reports an error after it ends, the error is
logged as the last event of the turn and the loop continues; the partial
assistant text (the joined fragments) stays appended to the transcript and
its token count is included by the second stats update. -/
theorem stream_error_keeps_partial (env : TurnEnv) (st : LoopState) (input : String)
    (k : Nat) (e : String)
    (hq : input ≠ "q") (htok : countTokens env.geInput input = (k, none))
    (hb : st.stats.totalTokens + (k : Int) ≤ MaxTokens) (herr : env.streamErr = some e) :
    loopStep env st input =
      .continued
        { messages := st.messages ++
            [⟨Role.user, input⟩, ⟨Role.assistant, String.join env.fragments⟩]
          stats := (st.stats.update k).update
            ((countTokens env.geResp (String.join env.fragments)).1) }
        ((OutEvent.echo input :: env.fragments.map OutEvent.fragment
            ++ [OutEvent.statsDisplay ((st.stats.update k).update
                ((countTokens env.geResp (String.join env.fragments)).1))])
          ++ [OutEvent.streamErrLog e]) := by
  rw [loopStep_accepted env st input k hq htok hb]
  simp [acceptedMessages, acceptedStats, acceptedOut, turnResponse, herr]

/-- Witness for C2: fresh state, input "hi" of 3 tokens, one fragment
"par" of 1 token, stream error "boom". -/
theorem stream_error_keeps_partial_witness :
    loopStep envStreamFail initState "hi" =
      .continued
        { messages := initState.messages ++
            [⟨Role.user, "hi"⟩, ⟨Role.assistant, String.join envStreamFail.fragments⟩]
          stats := (initState.stats.update 3).update
            ((countTokens envStreamFail.geResp (String.join envStreamFail.fragments)).1) }
        ((OutEvent.echo "hi" :: envStreamFail.fragments.map OutEvent.fragment
            ++ [OutEvent.statsDisplay ((initState.stats.update 3).update
                ((countTokens envStreamFail.geResp (String.join envStreamFail.fragments)).1))])
          ++ [OutEvent.streamErrLog "boom"]) :=
  stream_error_keeps_partial envStreamFail initState "hi" 3 "boom"
    (by decide) rfl (by decide) rfl

/-- Claim C9: the loop breaks exactly on the literal input "q", and on that
input it prints the final stats and exits with the state unmutated — the
exit event reports the stats as they stood. -/
theorem quit_sentinel_exits (env : TurnEnv) (st : LoopState) (input : String) :
    ((loopStep env st input).isExit = true ↔ input = "q") ∧
    loopStep env st "q" = .exited [.statsDisplay st.stats] := by
  refine ⟨⟨fun hx => ?_, fun hq => by simp [loopStep, hq, StepResult.isExit]⟩,
    loopStep_quit env st⟩
  by_contra hq
  rcases htok : countTokens env.geInput input with ⟨k, oe⟩
  rcases oe with _ | e
  · rcases le_or_lt (st.stats.totalTokens + (k : Int)) MaxTokens with hb | hb
    · rw [loopStep_accepted env st input k hq htok hb] at hx
      simp [StepResult.isExit] at hx
    · rw [loopStep_rejected env st input k hq htok hb] at hx
      simp [StepResult.isExit] at hx
  · have he : env.geInput = .error e := by
      rcases hgi : env.geInput with e2 | tkm <;> simp [countTokens, hgi] at htok
      · rw [htok.2]
    rw [loopStep_tokErr env st input e hq he] at hx
    simp [StepResult.isExit] at hx

/-- Claim C10: a turn whose input passes the budget check appends exactly
the user message then one assistant message — two messages — and increments
`messageCount` by exactly 2, whatever the fragments and whatever the stream
error; with zero fragments the assistant message has empty content and is
counted at the token count of the empty string. -/
theorem accepted_turn_appends_two (env : TurnEnv) (st : LoopState) (input : String) (k : Nat)
    (hq : input ≠ "q") (htok : countTokens env.geInput input = (k, none))
    (hb : st.stats.totalTokens + (k : Int) ≤ MaxTokens) :
    ∃ out, loopStep env st input =
        .continued
          { messages := st.messages ++
              [⟨Role.user, input⟩, ⟨Role.assistant, String.join env.fragments⟩]
            stats := acceptedStats env st.stats k } out ∧
      (st.messages ++
          [Message.mk Role.user input,
            Message.mk Role.assistant (String.join env.fragments)]).length =
        st.messages.length + 2 ∧
      (acceptedStats env st.stats k).messageCount = st.stats.messageCount + 2 ∧
      (env.fragments = [] →
        loopStep env st input =
          .continued
            { messages := st.messages ++ [⟨Role.user, input⟩, ⟨Role.assistant, ""⟩]
              stats := (st.stats.update k).update ((countTokens env.geResp "").1) } out) := by
  refine ⟨acceptedOut env st.stats input k, ?_, by simp, ?_, ?_⟩
  · rw [loopStep_accepted env st input k hq htok hb]
    simp [acceptedMessages, turnResponse]
  · simp only [acceptedStats, SessionStats.update]
    omega
  · intro hfr
    rw [loopStep_accepted env st input k hq htok hb]
    simp [acceptedMessages, acceptedStats, turnResponse, hfr, String.join]

/-- Witness for C10: fresh state, input "hi" of 3 tokens, zero fragments,
stream error "boom" — the two messages are still appended and the assistant
message is empty. -/
theorem accepted_turn_appends_two_witness :
    ∃ out, loopStep envEmptyStream initState "hi" =
        .continued
          { messages := initState.messages ++
              [⟨Role.user, "hi"⟩, ⟨Role.assistant, String.join envEmptyStream.fragments⟩]
            stats := acceptedStats envEmptyStream initState.stats 3 } out ∧
      (initState.messages ++
          [Message.mk Role.user "hi",
            Message.mk Role.assistant (String.join envEmptyStream.fragments)]).length =
        initState.messages.length + 2 ∧
      (acceptedStats envEmptyStream initState.stats 3).messageCount =
        initState.stats.messageCount + 2 ∧
      (envEmptyStream.fragments = [] →
        loopStep envEmptyStream initState "hi" =
          .continued
            { messages := initState.messages ++ [⟨Role.user, "hi"⟩, ⟨Role.assistant, ""⟩]
              stats := (initState.stats.update 3).update
                ((countTokens envEmptyStream.geResp "").1) } out) :=
  accepted_turn_appends_two envEmptyStream initState "hi" 3 (by decide) rfl (by decide)

/-- Counterexample to claim C3 as stated: in the turn with input "hi" under
`envRespTokFail`, the token counter fails on the assistant response, yet the
turn mutates the transcript and the stats and logs no token-counting error. -/
theorem resp_tok_failure_counterexample :
    (countTokens envRespTokFail.geResp (String.join envRespTokFail.fragments)).2 =
      some "encoding load failed" ∧
    loopStep envRespTokFail initState "hi" =
      .continued stateAfterRespTokFail outAfterRespTokFail ∧
    stateAfterRespTokFail.messages ≠ initState.messages ∧
    stateAfterRespTokFail.stats ≠ initState.stats ∧
    OutEvent.tokErrLog "encoding load failed" ∉ outAfterRespTokFail := by
  refine ⟨rfl, ?_, by decide, by decide, by decide⟩
  rfl

/-- Claim C3 as amended: a tokenization failure on the user's input is
logged to the diagnostic stream and skips the input with no mutation; a
tokenization failure on the assistant's response is silently ignored — no
error is logged, both messages stay appended to the transcript, and the
stats are updated with the 0 returned alongside the error. -/
theorem tokenization_failure_amended (env : TurnEnv) (st : LoopState) (input e : String)
    (hq : input ≠ "q") :
    (env.geInput = .error e →
      loopStep env st input = .continued st [.tokErrLog e]) ∧
    (∀ tkm : Encoder, env.geInput = .ok tkm →
      st.stats.totalTokens + (tkm input : Int) ≤ MaxTokens →
      env.geResp = .error e →
      loopStep env st input =
        .continued
          { messages := acceptedMessages env st.messages input
            stats := (st.stats.update (tkm input)).update 0 }
          (acceptedOut env st.stats input (tkm input)) ∧
      OutEvent.tokErrLog e ∉ acceptedOut env st.stats input (tkm input)) := by
  constructor
  · exact fun he => loopStep_tokErr env st input e hq he
  · intro tkm hok hb hresp
    have htok : countTokens env.geInput input = (tkm input, none) := by
      simp [countTokens, hok]
    constructor
    · rw [loopStep_accepted env st input (tkm input) hq htok hb]
      simp [acceptedStats, countTokens, hresp]
    · rcases henv : env.streamErr with _ | e2 <;>
        simp [acceptedOut, henv, List.mem_append, List.mem_map]

/-- Witness for the amended C3: the concrete failing turn of
`envRespTokFail`, where the input counts 1 token and the response-side
encoding load fails. -/
theorem tokenization_failure_amended_witness :
    (envRespTokFail.geInput = .error "encoding load failed" →
      loopStep envRespTokFail initState "hi" =
        .continued initState [.tokErrLog "encoding load failed"]) ∧
    (∀ tkm : Encoder, envRespTokFail.geInput = .ok tkm →
      initState.stats.totalTokens + (tkm "hi" : Int) ≤ MaxTokens →
      envRespTokFail.geResp = .error "encoding load failed" →
      loopStep envRespTokFail initState "hi" =
        .continued
          { messages := acceptedMessages envRespTokFail initState.messages "hi"
            stats := (initState.stats.update (tkm "hi")).update 0 }
          (acceptedOut envRespTokFail initState.stats "hi" (tkm "hi")) ∧
      OutEvent.tokErrLog "encoding load failed" ∉
        acceptedOut envRespTokFail initState.stats "hi" (tkm "hi")) :=
  tokenization_failure_amended envRespTokFail initState "hi" "encoding load failed"
    (by decide)

/-- Claim C4: after any run — initialization followed by any sequence of
turns — the reachable stats satisfy
`remainingTokens = MaxTokens - totalTokens`, and they are obtained from the
initial stats by a sequence of `update` calls alone: no other operation of
the loop mutates them. -/
theorem stats_invariant_reachable (turns : List (String × TurnEnv)) :
    (runLoop turns initState).stats.remainingTokens =
      MaxTokens - (runLoop turns initState).stats.totalTokens ∧
    ∃ ts : List Int, (runLoop turns initState).stats =
      ts.foldl SessionStats.update initStats := by
  rcases runLoop_stats_foldl turns initState with ⟨ts, hts⟩
  refine ⟨?_, ⟨ts, hts⟩⟩
  rw [hts]
  exact foldl_update_invariant ts initStats (by simp [initStats, MaxTokens])

/-- Claim C7: from the fresh session, the turn whose input counts 10 tokens
and whose streamed reply is "Hello" then " world", counted together at 2
tokens, ends with `messageCount = 2`, `totalTokens = 12` and
`remainingTokens = 4084`, the reply stored whole in the transcript. -/
theorem end_to_end_scenario :
    loopStep envScenario initState "Say hi" =
      .continued
        { messages := [⟨Role.system, "You are a helpful assistant."⟩,
            ⟨Role.user, "Say hi"⟩, ⟨Role.assistant, "Hello world"⟩]
          stats := { totalTokens := 12, messageCount := 2, remainingTokens := 4084 } }
        [.echo "Say hi", .fragment "Hello", .fragment " world",
          .statsDisplay { totalTokens := 12, messageCount := 2, remainingTokens := 4084 }] := by
  rfl

/-- Claim C8: the context-usage percentage printed by `display` is
`totalTokens / MaxTokens * 100` rounded to one decimal place — the printed
tenths-of-a-percent value is always within half a tenth of the exact value —
and for `totalTokens = 100` it is 24 tenths, i.e. 2.4%. -/
theorem display_percentage :
    (∀ t : Int, |(contextUsageTenths t : ℚ) - (t * 1000 : ℚ) / (MaxTokens : ℚ)| ≤ 1/2) ∧
    contextUsageTenths 100 = 24 := by
  constructor
  · intro t
    exact roundTiesToEven_close ((t * 1000 : ℚ) / (MaxTokens : ℚ))
  · have hfloor : ⌊(((100 : Int) : ℚ) * 1000 / ((MaxTokens : Int) : ℚ))⌋ = 24 := by
      rw [Int.floor_eq_iff]
      constructor <;> norm_num [MaxTokens]
    unfold contextUsageTenths roundTiesToEven
    rw [hfloor]
    norm_num [MaxTokens]

end ChatClient
